import Mathlib

/-!
Shallow embedding of the `project_op` environmental-sensor repository.

Two sub-programs live in `src/`:
* the standalone collector package: `validator.py` (`validate_value`,
  `verify_reports`), `sensor_type.py` (`SensorType`), `sensor.py` (`Sensor`),
  `data_collector.py` (`DataCollector`) — embedded in namespaces `Validator`
  and `SensorPkg`;
* the monitoring system `main.py` (`SensorType`, `Sensor`, `DataCollector`) —
  embedded in namespace `Monitoring`.

Numeric values are modelled as rationals (`ℚ`); Python exceptions become
`Except` / explicit failure flags; `random.uniform` draws and
`datetime.now()` timestamps become explicit parameters.
-/

namespace Validator

/--
Function `validate_value` from `src/validator.py`.  The Python function returns the
value unchanged when the sensor type is recognized and the value lies in the
type's inclusive range, and otherwise raises
`ValueError(f"Недопустиме значення для {sensor_type}: {value}")`; the raised
error is modelled as `Except.error (sensor_type, value)`, keeping exactly the
data interpolated into the message.
-/
def validate_value (value : ℚ) (sensor_type : String) : Except (String × ℚ) ℚ :=
  if sensor_type = "Температура" then
    if -50 ≤ value ∧ value ≤ 60 then .ok value
    else .error (sensor_type, value)
  else if sensor_type = "CO2" then
    if 0 ≤ value ∧ value ≤ 5000 then .ok value
    else .error (sensor_type, value)
  else if sensor_type = "PM2.5" then
    if 0 ≤ value ∧ value ≤ 500 then .ok value
    else .error (sensor_type, value)
  else if sensor_type = "Вологість" then
    if 0 ≤ value ∧ value ≤ 100 then .ok value
    else .error (sensor_type, value)
  else .error (sensor_type, value)

/-- Discriminator in the style of `Except.isOk`, used to state acceptance/rejection. -/
def resultOk : Except (String × ℚ) ℚ → Bool
  | .ok _ => true
  | .error _ => false

/-- The validator's recognized-type table as it stands in `validate_value`:
name, inclusive minimum, inclusive maximum. -/
def rangeTable : List (String × ℚ × ℚ) :=
  [("Температура", -50, 60), ("CO2", 0, 5000), ("PM2.5", 0, 500),
   ("Вологість", 0, 100)]

/-- The three dictionary keys `verify_reports` reads from each report entry
(`type`, `value`, `location`); the other keys of collector entries are never
accessed by it. -/
structure Report where
  type : String
  value : ℚ
  location : String
deriving DecidableEq, Repr

/-- The body of the loop of `verify_reports`: the early-`return False`
conditions of `src/validator.py`, in source order. -/
def checkPair (collected saved : Report) : Bool :=
  if collected.type ≠ saved.type then false
  else if (1 : ℚ)/100 < |collected.value - saved.value| then false
  else if collected.location ≠ saved.location then false
  else true

/--
Function `verify_reports` from `src/validator.py`: zips the two sequences (stopping at
the shorter), returns `False` on the first pair that differs in `type`,
differs in `location`, or whose values differ by more than `0.01`; returns
`True` otherwise.
-/
def verify_reports (collector_data saved_data : List Report) : Bool :=
  (collector_data.zip saved_data).all fun p => checkPair p.1 p.2

end Validator

namespace SensorPkg

/-- Class `SensorType` from `src/sensor_type.py`: just a name and a unit. -/
structure SensorType where
  name : String
  unit : String
deriving DecidableEq, Repr

/-- Class `Sensor` from `src/sensor.py`. -/
structure Sensor where
  sensor_id : String
  sensor_type : SensorType
  location : String
deriving DecidableEq, Repr

/--
Method `Sensor.read_data` from `src/sensor.py`: draws `value = random.uniform(0,100)`
and returns `validate_value(value, self.sensor_type.name)`.  The random draw
is non-deterministic, so it is passed in as the explicit argument `raw`.
-/
def Sensor.read_data (s : Sensor) (raw : ℚ) : Except (String × ℚ) ℚ :=
  Validator.validate_value raw s.sensor_type.name

/-- One element of `DataCollector.data` in `src/data_collector.py`: the
dictionary appended by `collect`. -/
structure Entry where
  sensor_id : String
  type : String
  value : ℚ
  unit : String
  location : String
deriving DecidableEq, Repr

/-- Class `DataCollector` from `src/data_collector.py`. -/
structure DataCollector where
  data : List Entry
deriving DecidableEq, Repr

/--
Method `DataCollector.collect` from `src/data_collector.py`: tries
`sensor.read_data()`; on success appends the entry dictionary to
`self.data`; on `ValueError` prints `f"[!] Помилка зчитування: {e}"` and
leaves `self.data` untouched.  The printed diagnostic is modelled as the
second component: `some e` with the `ValueError` payload, `none` when
nothing is printed.
-/
def DataCollector.collect (c : DataCollector) (s : Sensor) (raw : ℚ) :
    DataCollector × Option (String × ℚ) :=
  match s.read_data raw with
  | .ok value =>
    (⟨c.data ++ [⟨s.sensor_id, s.sensor_type.name, value, s.sensor_type.unit,
                 s.location⟩]⟩, none)
  | .error e => (c, some e)

end SensorPkg

namespace Monitoring

/-- JSON values, as written by `json.dump` and read by `json.load` in
`src/main.py`.  Objects keep their key order (Python dicts are
insertion-ordered). -/
inductive Json where
  | null
  | str (s : String)
  | num (q : ℚ)
  | arr (xs : List Json)
  | obj (kvs : List (String × Json))
deriving Repr

/-- Python `dict.get(key)` / `dict[key]` on a JSON object: `none` both for a
missing key and for a non-object value. -/
def Json.get (j : Json) (k : String) : Option Json :=
  match j with
  | .obj kvs => kvs.lookup k
  | _ => none

/-- Fetch a string-valued field; `none` when the key is missing or the value
is not a string. -/
def Json.getStr (j : Json) (k : String) : Option String :=
  match j.get k with
  | some (.str s) => some s
  | _ => none

/-- Fetch a number-valued field; `none` when the key is missing or the value
is not a number. -/
def Json.getNum (j : Json) (k : String) : Option ℚ :=
  match j.get k with
  | some (.num q) => some q
  | _ => none

/-- Class `SensorType` from `src/main.py`: name, unit, and the inclusive range. -/
structure SensorType where
  name : String
  unit : String
  min_value : ℚ
  max_value : ℚ
deriving DecidableEq, Repr

/-- Method `SensorType.validate_reading`: `self.min_value <= value <= self.max_value`. -/
def SensorType.validate_reading (t : SensorType) (value : ℚ) : Bool :=
  decide (t.min_value ≤ value ∧ value ≤ t.max_value)

/-- Method `SensorType.format_reading`: `f"{value:.2f} {self.unit}"`.  Python's
two-decimal float formatting is modelled by rounding the rational to
hundredths and printing sign, integer part and two fractional digits
(the float's round-half-to-even tie behaviour is approximated by `round`). -/
def SensorType.format_reading (t : SensorType) (value : ℚ) : String :=
  let n : ℤ := round (value * 100)
  let sign := if n < 0 then "-" else ""
  let m := n.natAbs
  let frac := m % 100
  sign ++ toString (m / 100) ++ "." ++ (if frac < 10 then "0" else "") ++
    toString frac ++ " " ++ t.unit

/-- One element of `Sensor.readings` in `src/main.py`: the dictionary built
by `Sensor.add_reading` (timestamps are kept as their `isoformat` strings). -/
structure Reading where
  value : ℚ
  timestamp : String
  formatted_value : String
deriving DecidableEq, Repr

/-- Class `Sensor` from `src/main.py`.  The `location` dictionary is kept as the
JSON value that was passed in (the code never inspects it). -/
structure Sensor where
  sensor_id : String
  location : Json
  sensor_type : SensorType
  readings : List Reading

/--
Method `Sensor.add_reading` from `src/main.py`: if
`self.sensor_type.validate_reading(value)` fails, print an error and return
`False` without touching `self.readings`; otherwise append
`{"value": value, "timestamp": timestamp.isoformat(),
"formatted_value": self.sensor_type.format_reading(value)}` and return
`True`.  The optional `timestamp` (defaulting to `datetime.now()`) is an
explicit string argument.
-/
def Sensor.add_reading (s : Sensor) (value : ℚ) (timestamp : String) :
    Sensor × Bool :=
  if s.sensor_type.validate_reading value then
    ({ s with readings :=
        s.readings ++ [⟨value, timestamp, s.sensor_type.format_reading value⟩] },
     true)
  else (s, false)

/-- Method `Sensor.get_latest_reading`: the last reading, or the empty dictionary
(modelled `none`) when there are none. -/
def Sensor.get_latest_reading (s : Sensor) : Option Reading :=
  if s.readings = [] then none else s.readings.getLast?

/-- Method `Sensor.get_average_reading`: `0` for an empty readings list, otherwise
`sum(reading["value"] …) / len(self.readings)`. -/
def Sensor.get_average_reading (s : Sensor) : ℚ :=
  if s.readings = [] then 0
  else (s.readings.map fun r => r.value).sum / s.readings.length

/-- Serialization of a reading dictionary, as `json.dump` would write it. -/
def Reading.toJson (r : Reading) : Json :=
  .obj [("value", .num r.value), ("timestamp", .str r.timestamp),
        ("formatted_value", .str r.formatted_value)]

/-- Method `Sensor.to_dict` from `src/main.py`. -/
def Sensor.to_dict (s : Sensor) : Json :=
  .obj [("sensor_id", .str s.sensor_id),
        ("location", s.location),
        ("sensor_type", .str s.sensor_type.name),
        ("readings_count", .num s.readings.length),
        ("latest_reading",
          match s.get_latest_reading with
          | none => .obj []
          | some r => r.toJson),
        ("average_reading", .num s.get_average_reading)]

/-- Python dict assignment `d[k] = v`: replace in place when the key exists,
append otherwise. -/
def dictSet (d : List (String × α)) (k : String) (v : α) : List (String × α) :=
  if d.any fun p => p.1 = k then
    d.map fun p => if p.1 = k then (k, v) else p
  else d ++ [(k, v)]

/--
Class `DataCollector` from `src/main.py`.  The `sensors` and `sensor_types`
dictionaries are insertion-ordered association lists; reports are stored in
their serialized (JSON) form, which is exactly what `save_report_to_file`
writes.  `uuid.uuid4()[:8]` sensor-id generation is modelled by the fresh
counter `nextId` (only freshness/uniqueness of ids matters to the code).
-/
structure DataCollector where
  name : String
  sensors : List (String × Sensor)
  sensor_types : List (String × SensorType)
  reports : List Json
  nextId : ℕ

/-- Method `DataCollector.register_sensor_type`: build the type, store it under its
name, return it. -/
def DataCollector.register_sensor_type (c : DataCollector)
    (name unit : String) (min_value max_value : ℚ) :
    DataCollector × SensorType :=
  let t : SensorType := ⟨name, unit, min_value, max_value⟩
  ({ c with sensor_types := dictSet c.sensor_types name t }, t)

/-- Method `DataCollector.create_sensor`: `None` when the type name is not
registered; otherwise creates a sensor with a fresh id, stores it in
`self.sensors`, and returns it (here: its id). -/
def DataCollector.create_sensor (c : DataCollector)
    (location : Json) (sensor_type_name : String) :
    DataCollector × Option String :=
  match c.sensor_types.lookup sensor_type_name with
  | none => (c, none)
  | some t =>
    let sid := toString c.nextId
    let s : Sensor := ⟨sid, location, t, []⟩
    ({ c with sensors := c.sensors ++ [(sid, s)], nextId := c.nextId + 1 },
     some sid)

/-- Method `DataCollector.add_reading`: `False` when the sensor id does not exist,
otherwise delegates to `Sensor.add_reading` (the mutated sensor object is
written back into the dictionary). -/
def DataCollector.add_reading (c : DataCollector)
    (sensor_id : String) (value : ℚ) (timestamp : String) :
    DataCollector × Bool :=
  match c.sensors.lookup sensor_id with
  | none => (c, false)
  | some s =>
    let (s2, ok) := s.add_reading value timestamp
    ({ c with sensors := dictSet c.sensors sensor_id s2 }, ok)

/-- Method `DataCollector.generate_report`: serializes the selected sensors
(`None` selects all), appends the report to `self.reports`, returns it.
`datetime.now().isoformat()` is the explicit argument `generated_at`. -/
def DataCollector.generate_report (c : DataCollector)
    (title generated_at : String) (sensor_ids : Option (List String)) :
    DataCollector × Json :=
  let ids := sensor_ids.getD (c.sensors.map fun p => p.1)
  let sensors_data := ids.filterMap fun sid =>
    (c.sensors.lookup sid).map fun s => s.to_dict
  let report : Json :=
    .obj [("title", .str title),
          ("generated_at", .str generated_at),
          ("sensors_count", .num sensors_data.length),
          ("sensors", .arr sensors_data)]
  ({ c with reports := c.reports ++ [report] }, report)

/-- Method `DataCollector.save_report_to_file`: `none` (returns `False`) for an
out-of-range index; otherwise the JSON document written to the file. -/
def DataCollector.save_report_to_file (c : DataCollector) (report_index : ℕ) :
    Option Json :=
  c.reports.get? report_index

/-- The `sensor_types` loop of `load_data`: each entry needs the `name`,
`unit`, `min_value`, `max_value` keys; a missing key raises `KeyError`
(modelled by the `false` flag, keeping the state mutated so far, because the
`except` clause in `load_data` only returns `False`). -/
def loadTypes (c : DataCollector) : List Json → DataCollector × Bool
  | [] => (c, true)
  | td :: rest =>
    match td.getStr "name", td.getStr "unit",
          td.getNum "min_value", td.getNum "max_value" with
    | some n, some u, some mn, some mx =>
      loadTypes (c.register_sensor_type n u mn mx).1 rest
    | _, _, _, _ => (c, false)

/-- The inner `readings` loop of `load_data`: parse the timestamp, then call
`sensor.add_reading(value, timestamp)` — when `create_sensor` returned
`None`, that call raises `AttributeError` (flag `false`). -/
def loadReadings (c : DataCollector) (osid : Option String) :
    List Json → DataCollector × Bool
  | [] => (c, true)
  | rd :: rest =>
    match rd.getStr "timestamp" with
    | none => (c, false)
    | some ts =>
      match rd.getNum "value" with
      | none => (c, false)
      | some v =>
        match osid with
        | none => (c, false)
        | some sid => loadReadings (c.add_reading sid v ts).1 osid rest

/-- The `sensors` loop of `load_data`: `create_sensor(location, sensor_type)`
followed by the readings loop over `sensor_data.get("readings", [])`. -/
def loadSensors (c : DataCollector) : List Json → DataCollector × Bool
  | [] => (c, true)
  | sd :: rest =>
    match sd.get "location", sd.getStr "sensor_type" with
    | some loc, some tname =>
      let (c2, osid) := c.create_sensor loc tname
      match sd.get "readings" with
      | none =>
        match loadReadings c2 osid [] with
        | (c3, true) => loadSensors c3 rest
        | (c3, false) => (c3, false)
      | some (.arr rds) =>
        match loadReadings c2 osid rds with
        | (c3, true) => loadSensors c3 rest
        | (c3, false) => (c3, false)
      | some _ => (c2, false)
    | _, _ => (c, false)

/--
Method `DataCollector.load_data` from `src/main.py`: a missing file (`none`) prints
an error and returns `False`; otherwise the parsed document is walked —
`data.get("sensor_types", [])` then `data.get("sensors", [])` — and any
exception inside the `try` block makes the whole call return `False`
(state mutated so far is kept, matching Python's in-place mutation).
A present `sensor_types`/`sensors` key that is not a list raises `TypeError`
on iteration (flag `false`).
-/
def DataCollector.load_data (c : DataCollector) (file : Option Json) :
    DataCollector × Bool :=
  match file with
  | none => (c, false)
  | some data =>
    match data.get "sensor_types" with
    | some (.arr tds) =>
      match loadTypes c tds with
      | (c2, true) =>
        match data.get "sensors" with
        | some (.arr sds) => loadSensors c2 sds
        | none => loadSensors c2 []
        | some _ => (c2, false)
      | (c2, false) => (c2, false)
    | none =>
      match data.get "sensors" with
      | some (.arr sds) => loadSensors c sds
      | none => loadSensors c []
      | some _ => (c, false)
    | some _ => (c, false)

end Monitoring

namespace Recommendation

/-- The type names covered by the recommendation rule table (spec §4.1/§4.2
fixed table). -/
def coveredTypes : List String :=
  ["Temperature", "CO2", "Noise", "PM2.5", "Humidity"]

/-- The generic message returned for any type outside the rule table. -/
def fallbackMessage : String :=
  "No specific recommendation is available for this measurement type."

/--
Modelled from the spec: the RecommendationEngine's `recommend` function
(§4.2) has no implementation in the source files; only the specification
describes it.  Per the spec it maps a validated value to a qualitative
category via type-specific, non-overlapping thresholds partitioning the
valid range, returns a fixed advisory sentence per category, and for any
type name outside the rule table returns a generic fallback message instead
of failing — it never raises (hence a total function into `String`).
-/
def recommend (typeName : String) (value : ℚ) : String :=
  if typeName = "Temperature" then
    if value < 0 then "poor: freezing conditions, limit outdoor exposure"
    else if value ≤ 30 then "good: comfortable temperature"
    else "moderate: heat, stay hydrated"
  else if typeName = "CO2" then
    if value ≤ 800 then "good: air is fresh"
    else if value ≤ 1500 then "moderate: consider ventilating"
    else "poor: ventilate immediately"
  else if typeName = "Noise" then
    if value ≤ 55 then "good: quiet environment"
    else if value ≤ 85 then "moderate: prolonged exposure may be tiring"
    else "poor: hearing protection recommended"
  else if typeName = "PM2.5" then
    if value ≤ 50 then "good: air quality is satisfactory"
    else if value ≤ 150 then "moderate: sensitive groups should take care"
    else "poor: avoid outdoor activity"
  else if typeName = "Humidity" then
    if value < 30 then "poor: air is too dry"
    else if value ≤ 60 then "good: comfortable humidity"
    else "moderate: high humidity, watch for mold"
  else fallbackMessage

end Recommendation

section ConcreteInstances

/-- The temperature sensor type of the `main.py` table (`"Температура"`,
`"°C"`, range `[-50, 60]`). -/
def tempType : Monitoring.SensorType := ⟨"Температура", "°C", -50, 60⟩

/-- A temperature sensor with no readings, as `Sensor.__init__` creates it. -/
def freshTempSensor : Monitoring.Sensor :=
  ⟨"s1", .obj [("lat", .num 50), ("lon", .num 30)], tempType, []⟩

/-- The fresh temperature sensor after one accepted and one rejected
reading. -/
def tempSensorAfterTwo : Monitoring.Sensor :=
  ((freshTempSensor.add_reading 25 "2024-01-01T00:00:00").1.add_reading 70
    "2024-01-01T00:01:00").1

/-- A temperature sensor holding two readings with values 10 and 20. -/
def tempSensorTwoReadings : Monitoring.Sensor :=
  ((freshTempSensor.add_reading 10 "2024-01-01T00:00:00").1.add_reading 20
    "2024-01-01T00:01:00").1

/-- An empty collector, as `DataCollector.__init__` creates it. -/
def freshCollector : Monitoring.DataCollector := ⟨"Еко", [], [], [], 0⟩

/-- A collector that registered the temperature type, created one sensor and
stored one reading — the state just before a report is generated. -/
def collectorWithData : Monitoring.DataCollector :=
  let c1 := (freshCollector.register_sensor_type "Температура" "°C" (-50) 60).1
  let (c2, osid) := c1.create_sensor (.obj [("lat", .num 50)]) "Температура"
  (c2.add_reading (osid.getD "") 25 "2024-01-01T00:00:00").1

/-- State of `collectorWithData` after `generate_report("Звіт", …)`. -/
def collectorWithReport : Monitoring.DataCollector :=
  (collectorWithData.generate_report "Звіт" "2024-01-02T00:00:00" none).1

/-- The JSON document `save_report_to_file(0, …)` writes for that report. -/
def savedReportFile : Option Monitoring.Json :=
  collectorWithReport.save_report_to_file 0

/-- A concrete report record, for verification witnesses. -/
def sampleReport : Validator.Report := ⟨"PM2.5", 10, "X"⟩

/-- The report record the spec's Scenario 5 persists: value `10.005`. -/
def sampleReportClose : Validator.Report := ⟨"PM2.5", 10 + 5/1000, "X"⟩

/-- A noise sensor of the collector package (`sensor_type.py` carries only a
name and a unit). -/
def noiseSensorPkg : SensorPkg.Sensor := ⟨"n1", ⟨"Шум", "дБ"⟩, "вулиця"⟩

/-- A temperature sensor of the collector package. -/
def tempSensorPkg : SensorPkg.Sensor := ⟨"t1", ⟨"Температура", "°C"⟩, "центр"⟩

/-- Every reading a `main.py` sensor stores lies within its type's inclusive
range (the invariant of claim C3). -/
def ReadingsValid (s : Monitoring.Sensor) : Prop :=
  ∀ r ∈ s.readings,
    s.sensor_type.min_value ≤ r.value ∧ r.value ≤ s.sensor_type.max_value

/-- Run a sequence of `add_reading` calls (value, timestamp) on a sensor,
keeping only the state, as repeated calls in the program do. -/
def applyReadings (s : Monitoring.Sensor) :
    List (ℚ × String) → Monitoring.Sensor
  | [] => s
  | (v, ts) :: rest => applyReadings (s.add_reading v ts).1 rest

instance (s : Monitoring.Sensor) : Decidable (ReadingsValid s) :=
  inferInstanceAs (Decidable (∀ r ∈ s.readings, _ ∧ _))

end ConcreteInstances



/-! ## Helper lemmas -/

/-- A pair passes the `verify_reports` loop body exactly when the types and
locations agree and the values differ by at most `0.01`. -/
theorem checkPair_eq_true (c s : Validator.Report) :
    Validator.checkPair c s = true ↔
      c.type = s.type ∧ |c.value - s.value| ≤ 1/100 ∧
        c.location = s.location := by
  unfold Validator.checkPair
  split_ifs with h1 h2 h3 <;> simp_all [not_lt]

/-! ## Claim theorems -/

/-- C1 counterexample: the claim includes Noise with range `[0, 150]` in the
validator's table, but `validate_value` has no noise branch — every plausible
rendering of the noise type name (the spec's `"Noise"`, the Ukrainian
`"Шум"`, and `main.py`'s `"Рівень шуму"`) is rejected even at the claimed
inclusive bounds `0` and `150`. -/
theorem validate_value_noise_counterexample :
    Validator.resultOk (Validator.validate_value 0 "Noise") = false ∧
    Validator.resultOk (Validator.validate_value 150 "Noise") = false ∧
    Validator.resultOk (Validator.validate_value 0 "Шум") = false ∧
    Validator.resultOk (Validator.validate_value 150 "Шум") = false ∧
    Validator.resultOk (Validator.validate_value 0 "Рівень шуму") = false ∧
    Validator.resultOk (Validator.validate_value 150 "Рівень шуму") = false :=
  ⟨rfl, rfl, rfl, rfl, rfl, rfl⟩

/-- Unfolding of `validate_value` at the temperature branch. -/
theorem validate_value_temp (v : ℚ) :
    Validator.validate_value v "Температура" =
      if -50 ≤ v ∧ v ≤ 60 then .ok v
      else .error ("Температура", v) := rfl

/-- Unfolding of `validate_value` at the CO2 branch. -/
theorem validate_value_co2 (v : ℚ) :
    Validator.validate_value v "CO2" =
      if 0 ≤ v ∧ v ≤ 5000 then .ok v else .error ("CO2", v) := rfl

/-- Unfolding of `validate_value` at the PM2.5 branch. -/
theorem validate_value_pm25 (v : ℚ) :
    Validator.validate_value v "PM2.5" =
      if 0 ≤ v ∧ v ≤ 500 then .ok v else .error ("PM2.5", v) := rfl

/-- Unfolding of `validate_value` at the humidity branch. -/
theorem validate_value_humidity (v : ℚ) :
    Validator.validate_value v "Вологість" =
      if 0 ≤ v ∧ v ≤ 100 then .ok v
      else .error ("Вологість", v) := rfl

/-- Acceptance discriminator on a range-check conditional, false branch. -/
theorem resultOk_ite_false {c : Prop} [Decidable c] (v : ℚ) (e : String × ℚ)
    (h : ¬c) :
    Validator.resultOk (if c then Except.ok v else Except.error e) = false := by
  rw [if_neg h]
  rfl

/-- C1 (amended): for every measurement type in the table `validate_value`
actually implements — Temperature `[-50, 60]`, CO2 `[0, 5000]`, PM2.5
`[0, 500]`, Humidity `[0, 100]`, with no Noise row — the inclusive bounds
are accepted and, for every `ε > 0`, the values `min - ε` and `max + ε` are
rejected. -/
theorem validate_value_range_table (name : String) (mn mx : ℚ)
    (h : (name, mn, mx) ∈ Validator.rangeTable) (ε : ℚ) (hε : 0 < ε) :
    Validator.resultOk (Validator.validate_value mn name) = true ∧
    Validator.resultOk (Validator.validate_value mx name) = true ∧
    Validator.resultOk (Validator.validate_value (mn - ε) name) = false ∧
    Validator.resultOk (Validator.validate_value (mx + ε) name) = false := by
  simp only [Validator.rangeTable, List.mem_cons, List.not_mem_nil, or_false,
    Prod.mk.injEq] at h
  rcases h with ⟨rfl, rfl, rfl⟩ | ⟨rfl, rfl, rfl⟩ | ⟨rfl, rfl, rfl⟩ |
    ⟨rfl, rfl, rfl⟩
  · refine ⟨by decide, by decide, ?_, ?_⟩
    · rw [validate_value_temp]
      exact resultOk_ite_false _ _ (by rintro ⟨h1, -⟩; linarith)
    · rw [validate_value_temp]
      exact resultOk_ite_false _ _ (by rintro ⟨-, h2⟩; linarith)
  · refine ⟨by decide, by decide, ?_, ?_⟩
    · rw [validate_value_co2]
      exact resultOk_ite_false _ _ (by rintro ⟨h1, -⟩; linarith)
    · rw [validate_value_co2]
      exact resultOk_ite_false _ _ (by rintro ⟨-, h2⟩; linarith)
  · refine ⟨by decide, by decide, ?_, ?_⟩
    · rw [validate_value_pm25]
      exact resultOk_ite_false _ _ (by rintro ⟨h1, -⟩; linarith)
    · rw [validate_value_pm25]
      exact resultOk_ite_false _ _ (by rintro ⟨-, h2⟩; linarith)
  · refine ⟨by decide, by decide, ?_, ?_⟩
    · rw [validate_value_humidity]
      exact resultOk_ite_false _ _ (by rintro ⟨h1, -⟩; linarith)
    · rw [validate_value_humidity]
      exact resultOk_ite_false _ _ (by rintro ⟨-, h2⟩; linarith)

/-- Witness for the amended C1 theorem at the temperature row with ε = 1. -/
theorem validate_value_range_table_witness :
    Validator.resultOk (Validator.validate_value (-50) "Температура") = true ∧
    Validator.resultOk (Validator.validate_value 60 "Температура") = true ∧
    Validator.resultOk (Validator.validate_value (-50 - 1) "Температура") = false ∧
    Validator.resultOk (Validator.validate_value (60 + 1) "Температура") = false :=
  validate_value_range_table "Температура" (-50) 60 (by decide) 1
    (by norm_num)

/-- C2: `verify_reports` returns true exactly when every pair of entries at a
common index agrees exactly on type and location and has values within the
`0.01` tolerance; indices beyond the shorter sequence are never compared, so
trailing unmatched elements on the longer sequence cannot cause a false
result. -/
theorem verify_reports_iff_pointwise (cd sd : List Validator.Report) :
    Validator.verify_reports cd sd = true ↔
      ∀ (i : ℕ) (h1 : i < cd.length) (h2 : i < sd.length),
        (cd.get ⟨i, h1⟩).type = (sd.get ⟨i, h2⟩).type ∧
        |(cd.get ⟨i, h1⟩).value - (sd.get ⟨i, h2⟩).value| ≤ 1/100 ∧
        (cd.get ⟨i, h1⟩).location = (sd.get ⟨i, h2⟩).location := by
  induction cd generalizing sd with
  | nil =>
    constructor
    · intro _ i h1 _
      exact absurd h1 (Nat.not_lt_zero i)
    · intro _
      rfl
  | cons c cs ih =>
    cases sd with
    | nil =>
      constructor
      · intro _ i _ h2
        exact absurd h2 (Nat.not_lt_zero i)
      · intro _
        rfl
    | cons s ss =>
      have base : Validator.verify_reports (c :: cs) (s :: ss) =
          (Validator.checkPair c s && Validator.verify_reports cs ss) := rfl
      rw [base, Bool.and_eq_true, checkPair_eq_true, ih ss]
      constructor
      · rintro ⟨⟨ht, hv, hl⟩, hrest⟩ i h1 h2
        cases i with
        | zero => exact ⟨ht, hv, hl⟩
        | succ n =>
          exact hrest n (Nat.lt_of_succ_lt_succ h1) (Nat.lt_of_succ_lt_succ h2)
      · intro hall
        refine ⟨hall 0 (Nat.succ_pos _) (Nat.succ_pos _), fun n hn1 hn2 => ?_⟩
        exact hall (n + 1) (Nat.succ_lt_succ hn1) (Nat.succ_lt_succ hn2)

/-- Witness for C2 at the spec's Scenario 5 pair: type PM2.5, values 10 and
10.005, same location — within tolerance, so verification succeeds. -/
theorem verify_reports_iff_pointwise_witness :
    Validator.verify_reports [sampleReport] [sampleReportClose] = true :=
  (verify_reports_iff_pointwise [sampleReport] [sampleReportClose]).mpr
    (by
      intro i h1 h2
      have h0 : i = 0 := Nat.lt_one_iff.mp (by simpa using h1)
      subst h0
      refine ⟨rfl, ?_, rfl⟩
      show |sampleReport.value - sampleReportClose.value| ≤ 1/100
      rw [sampleReport, sampleReportClose]
      rw [abs_le]
      constructor <;> norm_num)

/-- C8: verifying any well-formed sequence of reports against itself always
succeeds. -/
theorem verify_reports_self (X : List Validator.Report) :
    Validator.verify_reports X X = true := by
  induction X with
  | nil => rfl
  | cons x xs ih =>
    have base : Validator.verify_reports (x :: xs) (x :: xs) =
        (Validator.checkPair x x && Validator.verify_reports xs xs) := rfl
    rw [base, ih, Bool.and_true]
    exact (checkPair_eq_true x x).mpr
      ⟨rfl, by rw [sub_self, abs_zero]; norm_num, rfl⟩

/-- C4: for every value, an unrecognized type name makes `validate_value`
fail with an error carrying exactly the type name and the offending value
(so `validate(v, "UnknownType")` always fails), and whenever validation
succeeds the returned value is the input value itself — no clamping and no
rounding. -/
theorem validate_value_unknown_and_identity (v : ℚ) (t : String) :
    (t ∉ ["Температура", "CO2", "PM2.5", "Вологість"] →
      Validator.validate_value v t = .error (t, v)) ∧
    (∀ r : ℚ, Validator.validate_value v t = .ok r → r = v) := by
  constructor
  · intro ht
    simp only [List.mem_cons, List.not_mem_nil, or_false, not_or] at ht
    obtain ⟨h1, h2, h3, h4⟩ := ht
    unfold Validator.validate_value
    rw [if_neg h1, if_neg h2, if_neg h3, if_neg h4]
  · intro r hr
    unfold Validator.validate_value at hr
    split_ifs at hr <;> exact (Except.ok.inj hr).symm

/-- Witness for C4: the literal type name `"UnknownType"` is rejected with
the full payload, and a successful CO2 validation returns its input. -/
theorem validate_value_unknown_and_identity_witness :
    Validator.validate_value 7 "UnknownType" = .error ("UnknownType", 7) ∧
    (400 : ℚ) = 400 :=
  ⟨(validate_value_unknown_and_identity 7 "UnknownType").1 (by decide),
   (validate_value_unknown_and_identity 400 "CO2").2 400 rfl⟩

/-- C9: `validate_value` is pure and deterministic — its embedding takes
only the value and the type name (the source reads no other state), so two
calls with identical inputs return identical results, the same `ok` value on
success and the same rejection payload on failure. -/
theorem validate_value_deterministic (v1 v2 : ℚ) (t1 t2 : String)
    (hv : v1 = v2) (ht : t1 = t2) :
    Validator.validate_value v1 t1 = Validator.validate_value v2 t2 := by
  subst hv
  subst ht
  rfl

/-- Witness for C9 at a concrete repeated call. -/
theorem validate_value_deterministic_witness :
    Validator.validate_value 25 "Температура" =
      Validator.validate_value 25 "Температура" :=
  validate_value_deterministic 25 25 "Температура" "Температура" rfl rfl

/-- One `add_reading` call preserves the range invariant on the stored
readings: a value that fails `validate_reading` is never appended, and an
appended value has just passed the range check. -/
theorem readingsValid_add_reading (s : Monitoring.Sensor)
    (h : ReadingsValid s) (v : ℚ) (ts : String) :
    ReadingsValid (s.add_reading v ts).1 := by
  unfold Monitoring.Sensor.add_reading
  by_cases hv : s.sensor_type.validate_reading v = true
  · rw [if_pos hv]
    intro r hr
    simp only [List.mem_append, List.mem_singleton] at hr
    rcases hr with hmem | rfl
    · exact h r hmem
    · exact of_decide_eq_true hv
  · rw [if_neg hv]
    exact h

/-- C3: for every sensor whose stored readings all lie in its type's
inclusive range (in particular a freshly created sensor, whose list is
empty) and for every sequence of `add_reading` calls, every reading stored
afterwards still satisfies `min_value ≤ value ≤ max_value`; a value rejected
by the range check is never stored. -/
theorem add_reading_invariant (s : Monitoring.Sensor) (h : ReadingsValid s)
    (calls : List (ℚ × String)) : ReadingsValid (applyReadings s calls) := by
  induction calls generalizing s with
  | nil => exact h
  | cons c rest ih =>
    exact ih _ (readingsValid_add_reading s h c.1 c.2)

/-- Witness for C3: a fresh temperature sensor fed one in-range value (25)
and one out-of-range value (70) ends with every stored reading in range. -/
theorem add_reading_invariant_witness : ReadingsValid tempSensorAfterTwo :=
  add_reading_invariant freshTempSensor (by decide)
    [(25, "2024-01-01T00:00:00"), (70, "2024-01-01T00:01:00")]

/-- C5: whenever a sensor's current (raw) reading is rejected by
`validate_value`, `DataCollector.collect` returns the collector state
completely unchanged — no partial entry is appended to `data` — and the
`ValueError` diagnostic is surfaced to the caller, so the rejected reading
is never aggregated. -/
theorem collect_rejected_unchanged (c : SensorPkg.DataCollector)
    (s : SensorPkg.Sensor) (raw : ℚ) (e : String × ℚ)
    (h : s.read_data raw = .error e) :
    (c.collect s raw).1 = c ∧ (c.collect s raw).2 = some e := by
  unfold SensorPkg.DataCollector.collect
  rw [h]
  exact ⟨rfl, rfl⟩

/-- Witness for C5: a noise-type sensor (whose type name the validator does
not recognize) read at raw value 50 leaves an empty collector empty and
surfaces the diagnostic payload. -/
theorem collect_rejected_unchanged_witness :
    (SensorPkg.DataCollector.collect ⟨[]⟩ noiseSensorPkg 50).1 = ⟨[]⟩ ∧
    (SensorPkg.DataCollector.collect ⟨[]⟩ noiseSensorPkg 50).2 =
      some ("Шум", 50) :=
  collect_rejected_unchanged ⟨[]⟩ noiseSensorPkg 50 ("Шум", 50) rfl

/-- C6: `recommend` is a total function into `String` — for every type name
and value it returns some advisory string and cannot raise — and for any
type name outside its rule table it returns the generic fallback message. -/
theorem recommend_total_and_fallback (typeName : String) (value : ℚ) :
    (∃ advice : String, Recommendation.recommend typeName value = advice) ∧
    (typeName ∉ Recommendation.coveredTypes →
      Recommendation.recommend typeName value =
        Recommendation.fallbackMessage) := by
  refine ⟨⟨_, rfl⟩, ?_⟩
  intro h
  simp only [Recommendation.coveredTypes, List.mem_cons, List.not_mem_nil,
    or_false, not_or] at h
  obtain ⟨h1, h2, h3, h4, h5⟩ := h
  unfold Recommendation.recommend
  rw [if_neg h1, if_neg h2, if_neg h3, if_neg h4, if_neg h5]

/-- Witness for C6: a type name outside the rule table gets the fallback
message. -/
theorem recommend_total_and_fallback_witness :
    Recommendation.recommend "Radiation" 3 = Recommendation.fallbackMessage :=
  (recommend_total_and_fallback "Radiation" 3).2 (by decide)

/-- C10: `get_average_reading` returns 0 for a sensor with no readings
(avoiding the division by zero), and for a non-empty readings list it
returns the arithmetic mean of the stored values: the result times the
number of readings equals their sum. -/
theorem get_average_reading_mean (s : Monitoring.Sensor) :
    (s.readings = [] → s.get_average_reading = 0) ∧
    (s.readings ≠ [] →
      s.get_average_reading * s.readings.length =
        (s.readings.map fun r => r.value).sum) := by
  constructor
  · intro h
    unfold Monitoring.Sensor.get_average_reading
    rw [if_pos h]
  · intro h
    unfold Monitoring.Sensor.get_average_reading
    rw [if_neg h]
    have hlen0 : s.readings.length ≠ 0 := fun hh => h (List.length_eq_zero.mp hh)
    have hlen : (s.readings.length : ℚ) ≠ 0 := Nat.cast_ne_zero.mpr hlen0
    exact div_mul_cancel₀ _ hlen

/-- Witness for C10: the fresh sensor (no readings) averages to 0, and a
sensor with readings 10 and 20 has average times count equal to their sum. -/
theorem get_average_reading_mean_witness :
    Monitoring.Sensor.get_average_reading freshTempSensor = 0 ∧
    Monitoring.Sensor.get_average_reading tempSensorTwoReadings *
        tempSensorTwoReadings.readings.length =
      (tempSensorTwoReadings.readings.map fun r => r.value).sum :=
  ⟨(get_average_reading_mean freshTempSensor).1 rfl,
   (get_average_reading_mean tempSensorTwoReadings).2 (by decide)⟩

/-- C7 (code bug): the persistence pair does not round-trip.  A collector
holding one registered type and one sensor with one stored reading produces
a report; `save_report_to_file` writes that report as the file content, yet
`load_data` on that very file returns `True` while restoring no sensor
types, no sensors and hence no readings — `load_data` reads the keys
`sensor_types` and `sensors[i].readings`, which `save_report_to_file` never
writes. -/
theorem save_load_roundtrip_fails :
    collectorWithReport.sensors.length = 1 ∧
    (collectorWithReport.sensors.map fun p => p.2.readings.length) = [1] ∧
    savedReportFile.isSome = true ∧
    (Monitoring.DataCollector.load_data freshCollector savedReportFile).2 =
      true ∧
    (Monitoring.DataCollector.load_data freshCollector
        savedReportFile).1.sensors.length = 0 ∧
    (Monitoring.DataCollector.load_data freshCollector
        savedReportFile).1.sensor_types.length = 0 :=
  ⟨rfl, rfl, rfl, rfl, rfl, rfl⟩
